import Mathlib

/-!
Verification of the snack real-time pub/sub relay core:
the relay server (snackpub/src/index.ts), the socket.io client transport
adapter (RuntimeTransportImplSocketIO), and the composited client
transport with its bounded dedup queue.

Shallow embedding: each handler and method is translated into a pure
Lean function over explicit state; emitted socket events are collected
into lists.  The composited transport and the dedup queue themselves are
not present in the sources (only their test suite is), so those two
components are modelled from the spec and checked against the concrete
scenarios of RuntimeCompositedTransport-test.ts.
-/

namespace Snack

/-! ## Dedup queue (AckMessageQueue) -/

/-- Modelled from the spec: the `AckMessageQueue` class of
`RuntimeCompositedTransport.ts` is missing from the sources (only its test
file is present).  A bounded, recency-ordered store of message-fingerprint
strings, capacity fixed at construction. -/
structure AckMessageQueue where
  maxSize : Nat
  queue : List String
  deriving Repr, DecidableEq

/-- Modelled from the spec: `new AckMessageQueue(maxSize)` starts empty. -/
def AckMessageQueue.mkEmpty (maxSize : Nat) : AckMessageQueue :=
  { maxSize := maxSize, queue := [] }

/-- Modelled from the spec: `enqueueMessageStringAsync` inserts the
fingerprint at the front; if the size exceeds the capacity after insertion
it evicts from the back until the size equals the capacity. -/
def AckMessageQueue.enqueueMessageString (q : AckMessageQueue) (fp : String) :
    AckMessageQueue :=
  { q with queue := (fp :: q.queue).take q.maxSize }

/-- Modelled from the spec: `findMessageStringAsync` is an exact string-match
lookup among the stored fingerprints. -/
def AckMessageQueue.findMessageString (q : AckMessageQueue) (fp : String) : Bool :=
  q.queue.contains fp

/-- Modelled from the spec: `size()` reports the number of stored entries. -/
def AckMessageQueue.size (q : AckMessageQueue) : Nat :=
  q.queue.length

/-- Modelled from the spec: `at(i)` reads the entry at position `i`,
position 0 being the most recently enqueued fingerprint. -/
def AckMessageQueue.at (q : AckMessageQueue) (i : Nat) : Option String :=
  q.queue.get? i

/-- Enqueue a whole list of fingerprints in order. -/
def AckMessageQueue.enqueueAll (q : AckMessageQueue) (fps : List String) :
    AckMessageQueue :=
  fps.foldl AckMessageQueue.enqueueMessageString q

/-- The five test fingerprints `JSON.stringify({"1":"1"})` … `({"5":"5"})`. -/
def fpOf (n : String) : String :=
  "\x7b\"" ++ n ++ "\":\"" ++ n ++ "\"\x7d"

/-! ## Relay server (snackpub/src/index.ts)

A socket is a connection with a server-assigned id, the set of rooms it has
joined (socket.io rooms, set-like), and the `socket.data.deviceId`
association.  Message payloads are opaque to the relay and embedded as
strings. -/

structure ServerSocket where
  sid : String
  rooms : List String
  deviceId : Option String
  deriving Repr, DecidableEq

/-- A server → client event, as typed in `ServerToClientEvents`. -/
inductive ServerEvent where
  | message (channel : String) (message : String) (sender : String)
  | joinChannel (channel : String) (sender : String)
  | leaveChannel (channel : String) (sender : String)
  | terminate (reason : String)
  deriving Repr, DecidableEq

/-- One emission: an event sent to one target socket id. -/
structure Emit where
  target : String
  event : ServerEvent
  deriving Repr, DecidableEq

structure ServerState where
  sockets : List ServerSocket
  deriving Repr, DecidableEq

/-- The room-join primitive `socket.join(channel)`: adds the socket to the room; socket.io rooms are
sets, so joining a room already joined is a no-op. -/
def ServerState.join (st : ServerState) (sid channel : String) : ServerState :=
  { sockets := st.sockets.map fun s =>
      if s.sid = sid then
        { s with rooms := if channel ∈ s.rooms then s.rooms else channel :: s.rooms }
      else s }

/-- The room-leave primitive `socket.leave(channel)`: removes the socket from the room. -/
def ServerState.leave (st : ServerState) (sid channel : String) : ServerState :=
  { sockets := st.sockets.map fun s =>
      if s.sid = sid then { s with rooms := s.rooms.filter (fun r => r ≠ channel) }
      else s }

/-- The assignment `socket.data.deviceId = sender`. -/
def ServerState.setDeviceId (st : ServerState) (sid sender : String) : ServerState :=
  { sockets := st.sockets.map fun s =>
      if s.sid = sid then { s with deviceId := some sender } else s }

/-- The rooms the socket `sid` currently belongs to. -/
def ServerState.roomsOf (st : ServerState) (sid : String) : List String :=
  ((st.sockets.find? fun s => s.sid == sid).map ServerSocket.rooms).getD []

/-- The broadcast primitive `socket.to(channel).emit(ev)`: broadcast to every socket currently in the
room except the emitting socket itself. -/
def ServerState.toRoomEmit (st : ServerState) (sid channel : String)
    (ev : ServerEvent) : List Emit :=
  (st.sockets.filter fun s => s.rooms.contains channel && s.sid != sid).map
    fun s => ⟨s.sid, ev⟩

/-- The `message` handler: consult the rate limiter (its verdict is the
`limited` input); on an exceeded verdict send the terminate notice; in all
cases relay `{channel, message, sender}` verbatim to the other members of
the room — the handler does not return early after `terminateSocket`. -/
def onMessage (st : ServerState) (sid : String) (limited : Bool)
    (channel message sender : String) : List Emit :=
  (if limited then [⟨sid, ServerEvent.terminate "Too many messages."⟩] else []) ++
    st.toRoomEmit sid channel (ServerEvent.message channel message sender)

/-- The `subscribeChannel` handler: rate-limit check, then `socket.join` and
`socket.data.deviceId = sender`.  Returns (emitted events, new state). -/
def onSubscribeChannel (st : ServerState) (sid : String) (limited : Bool)
    (channel sender : String) : List Emit × ServerState :=
  ((if limited then [⟨sid, ServerEvent.terminate "Too many channels."⟩] else []),
    ServerState.setDeviceId (ServerState.join st sid channel) sid sender)

/-- The `unsubscribeChannel` handler: `socket.leave(channel)`. -/
def onUnsubscribeChannel (st : ServerState) (sid : String) (channel : String) :
    ServerState :=
  ServerState.leave st sid channel

/-- The lookup `sockets.filter((socket) => socket.id === id)?.[0]?.data?.deviceId` over
the sockets fetched from the room. -/
def resolveSender (sockets : List ServerSocket) (id : String) : Option String :=
  match sockets.filter (fun s => s.sid == id) with
  | [] => none
  | s :: _ => s.deviceId

/-- The adapter `join-room` / `leave-room` handler: fetch the sockets of the
room, resolve the triggering socket's device id; `if (!sender) return;`
(JS falsiness: both a missing deviceId and the empty string abort); else emit
the presence event to every fetched socket whose id differs. -/
def presenceEmits (isJoin : Bool) (channel : String)
    (sockets : List ServerSocket) (id : String) : List Emit :=
  match resolveSender sockets id with
  | none => []
  | some snd =>
    if snd = "" then []
    else
      (sockets.filter fun s => s.sid != id).map fun s =>
        ⟨s.sid, if isJoin then ServerEvent.joinChannel channel snd
                else ServerEvent.leaveChannel channel snd⟩

/-! ## terminateSocket (snackpub/src/index.ts) -/

/-- The observable timeline actions of `terminateSocket`. -/
inductive TermEvent where
  | notice (reason : String)
  | forceClose
  deriving Repr, DecidableEq

/-- The action `terminateSocket(socket, reason)` started at time `t0` (milliseconds):
emit the terminate notice immediately; 3000 ms later, if the socket is still
connected (`clientDisconnectAt`, when present, is the time the client closes
its own side), call `socket.disconnect(true)`. -/
def terminateSocketTimeline (t0 : Nat) (reason : String)
    (clientDisconnectAt : Option Nat) : List (Nat × TermEvent) :=
  (t0, TermEvent.notice reason) ::
    (match clientDisconnectAt with
     | some d => if d ≤ t0 + 3000 then [] else [(t0 + 3000, TermEvent.forceClose)]
     | none => [(t0 + 3000, TermEvent.forceClose)])

/-! ## Shutdown signal handling (snackpub/src/index.ts) -/

inductive Sig where
  | sigHup
  | sigInt
  | sigTerm
  | sigUsr2
  deriving Repr, DecidableEq

/-- One step of the `shutdown` async function body, in call order. -/
inductive ShutdownStep where
  | closeServer
  | closeRedisAdapter
  | redisQuit
  deriving Repr, DecidableEq

/-- The body of `shutdown`: `closeServerAsync`, `closeRedisAdapterAsync`,
`redisClient?.quit()`, in that order. -/
def shutdownSeq : List ShutdownStep :=
  [ShutdownStep.closeServer, ShutdownStep.closeRedisAdapter, ShutdownStep.redisQuit]

/-- Signal-handler state: which signal names have already consumed their
`process.once` registration, and the concatenated log of shutdown steps run. -/
structure SignalState where
  consumed : List Sig
  log : List ShutdownStep
  deriving Repr, DecidableEq

def initSignalState : SignalState :=
  { consumed := [], log := [] }

/-- Delivering one signal: `registerShutdownHandlers` registers a separate
`process.once` handler per signal name, so a handler fires at most once per
name; firing runs the shutdown sequence. -/
def deliverSignal (st : SignalState) (sig : Sig) : SignalState :=
  if sig ∈ st.consumed then st
  else { consumed := sig :: st.consumed, log := st.log ++ shutdownSeq }

def deliverSignals (st : SignalState) (sigs : List Sig) : SignalState :=
  sigs.foldl deliverSignal st

/-- Number of distinct signal names in a delivery sequence. -/
def distinctSigCount (sigs : List Sig) : Nat :=
  sigs.eraseDups.length

/-- The promise wrapper `closeServerAsync`: the `server.close` callback logs
'Failed to close server' when an error is reported and resolves the promise
in both cases — a failing server close is swallowed (logged only), never
propagated as a rejection.  Returns the log lines and whether the promise
resolved. -/
def closeServerAsync (closeError : Bool) : List String × Bool :=
  ((if closeError then ["Failed to close server"] else []), true)

/-- Process outcome of one shutdown sequence: the log lines of the
server-close step and the process exit code.  The shutdown path contains no
`process.exit` call (the `process.exit(1)` in the entry point covers only
startup failures), so once `closeServerAsync` resolves — which it does even
when `server.close` reported an error — the event loop drains and the
process exits with code 0. -/
def shutdownOutcome (serverCloseError : Bool) : List String × Nat :=
  ((closeServerAsync serverCloseError).1,
    if (closeServerAsync serverCloseError).2 then 0 else 1)

/-! ## Client socket.io transport (RuntimeTransportImplSocketIO) -/

structure Device where
  id : String
  name : Option String
  platform : String
  deriving Repr, DecidableEq

/-- Outbound message object: `{ ...message, device: this._device }` — the
application message (opaque) augmented with the device metadata. -/
structure ClientMessage where
  base : String
  device : Device
  deriving Repr, DecidableEq

/-- A client → server event, as typed in `ClientToServerEvents`. -/
inductive ClientEmit where
  | subscribeChannel (channel : String) (sender : String)
  | unsubscribeChannel (channel : String) (sender : String)
  | message (channel : String) (message : ClientMessage) (sender : String)
  deriving Repr, DecidableEq

/-- The adapter's state: `_currentChannel`, `_device` and the `_sender` tag
(`JSON.stringify(device)`, kept abstract as a field fixed at construction). -/
structure SocketIOTransport where
  currentChannel : Option String
  device : Device
  sender : String
  deriving Repr, DecidableEq

/-- The constructor: `_currentChannel` starts null. -/
def SocketIOTransport.create (device : Device) (sender : String) :
    SocketIOTransport :=
  { currentChannel := none, device := device, sender := sender }

/-- The method `unsubscribe()`: guarded by the truthy check
`if (this._currentChannel)` — both null and the empty string are falsy, so
only for a non-empty current channel does it emit `unsubscribeChannel` and
clear `_currentChannel`; otherwise it does nothing (an empty-string channel
is left in place). -/
def SocketIOTransport.unsubscribe (t : SocketIOTransport) :
    List ClientEmit × SocketIOTransport :=
  match t.currentChannel with
  | some ch =>
    if ch = "" then ([], t)
    else ([ClientEmit.unsubscribeChannel ch t.sender], { t with currentChannel := none })
  | none => ([], t)

/-- The method `subscribe(channel)`: `this.unsubscribe()` first, then set
`_currentChannel` and emit `subscribeChannel`. -/
def SocketIOTransport.subscribe (t : SocketIOTransport) (channel : String) :
    List ClientEmit × SocketIOTransport :=
  ((t.unsubscribe).1 ++ [ClientEmit.subscribeChannel channel t.sender],
    { (t.unsubscribe).2 with currentChannel := some channel })

/-- The method `publish(message)`: guarded by the truthy check
`if (this._currentChannel)` — both null and the empty string are falsy — so
it emits one `message` event with the device metadata attached only when a
non-empty channel is current, and is a silent no-op otherwise. -/
def SocketIOTransport.publish (t : SocketIOTransport) (message : String) :
    List ClientEmit :=
  match t.currentChannel with
  | some ch =>
    if ch = "" then []
    else [ClientEmit.message ch ⟨message, t.device⟩ t.sender]
  | none => []

/-! ## Composited client transport (RuntimeCompositedTransport) -/

inductive Adapter where
  | primary
  | fallback
  deriving Repr, DecidableEq

/-- Modelled from the spec: `RuntimeCompositedTransport.publish` is missing
from the sources (only its test file is present) — it sends through the
primary adapter iff `primary.isConnected()` reports true at the time of the
call, otherwise through the fallback adapter. -/
def compositedPublishTargets (primaryConnected : Bool) : List Adapter :=
  if primaryConnected then [Adapter.primary] else [Adapter.fallback]

/-- Modelled from the spec: a sequence of publish calls, each paired with the
primary connectivity observed fresh at that call; yields every (adapter,
message) send performed. -/
def compositedPublishRun (calls : List (Bool × String)) : List (Adapter × String) :=
  calls.flatMap fun c => (compositedPublishTargets c.1).map fun a => (a, c.2)

/-- An inbound delivery seen by the composited transport's internal listener:
arrival time (ms), source adapter, and the message fingerprint. -/
structure Delivery where
  time : Nat
  fromPrimary : Bool
  message : String
  deriving Repr, DecidableEq

/-- Modelled from the spec: the settle delay of `RuntimeCompositedTransport`'s
listen filter (the class is missing from the sources) — a fallback delivery
while the primary is connected is processed `delta` ms after arrival; primary
deliveries, and all deliveries while the primary is disconnected, are
processed immediately. -/
def effectiveTime (primaryConnected : Bool) (delta : Nat) (d : Delivery) : Nat :=
  if !d.fromPrimary && primaryConnected then d.time + delta else d.time

/-- Stable insertion by effective processing time: a newly scheduled event
fires after already-scheduled events with an earlier or equal effective
time. -/
def insertByTime (eff : Delivery → Nat) (d : Delivery) :
    List Delivery → List Delivery
  | [] => [d]
  | x :: xs => if eff x ≤ eff d then x :: insertByTime eff d xs else d :: x :: xs

/-- The order in which deliveries are processed by the single-threaded event
loop: arrival order reordered by effective time, ties kept in arrival
order. -/
def scheduleOrder (eff : Delivery → Nat) (ds : List Delivery) : List Delivery :=
  ds.foldl (fun acc d => insertByTime eff d acc) []

/-- The listen pipeline's mutable state: the dedup queue and the messages
surfaced to the upper listener, in order. -/
structure ListenState where
  ackQueue : AckMessageQueue
  delivered : List String
  deriving Repr, DecidableEq

/-- Modelled from the spec: steps 1–3 of the listen dedup filter — look the
fingerprint up in the dedup queue; if present discard, else enqueue it and
invoke the upper listener exactly once. -/
def dedupStep (st : ListenState) (m : String) : ListenState :=
  if st.ackQueue.findMessageString m then st
  else { ackQueue := st.ackQueue.enqueueMessageString m,
         delivered := st.delivered ++ [m] }

/-- Modelled from the spec: run the composited listen pipeline over a batch
of deliveries, with the dedup queue of capacity `cap` starting empty. -/
def runListen (primaryConnected : Bool) (delta cap : Nat) (ds : List Delivery) :
    ListenState :=
  ((scheduleOrder (effectiveTime primaryConnected delta) ds).map
    Delivery.message).foldl dedupStep
    { ackQueue := AckMessageQueue.mkEmpty cap, delivered := [] }

lemma presenceEmits_unresolved (isJoin : Bool) (ch : String)
    (sockets : List ServerSocket) (id : String)
    (h : resolveSender sockets id = none ∨ resolveSender sockets id = some "") :
    presenceEmits isJoin ch sockets id = [] := by
  rcases h with h | h <;> simp [presenceEmits, h]

lemma presenceEmits_resolved (isJoin : Bool) (ch : String)
    (sockets : List ServerSocket) (id snd : String)
    (h1 : resolveSender sockets id = some snd) (h2 : snd ≠ "") :
    presenceEmits isJoin ch sockets id =
      (sockets.filter fun s => s.sid != id).map fun s =>
        ⟨s.sid, if isJoin then ServerEvent.joinChannel ch snd
                else ServerEvent.leaveChannel ch snd⟩ := by
  simp [presenceEmits, h1, h2]

lemma onSubscribeChannel_sockets_eq (st : ServerState) (sid : String)
    (limited : Bool) (ch snd : String) :
    ((onSubscribeChannel st sid limited ch snd).2).sockets =
      st.sockets.map fun s =>
        if s.sid = sid then
          { s with rooms := if ch ∈ s.rooms then s.rooms else ch :: s.rooms,
                   deviceId := some snd }
        else s := by
  simp only [onSubscribeChannel, ServerState.setDeviceId, ServerState.join,
    List.map_map]
  apply List.map_congr_left
  intro x _
  by_cases h : x.sid = sid <;> simp [Function.comp, h]

lemma take_append_take (n : Nat) (a l : List String) :
    List.take n (a ++ List.take n l) = List.take n (a ++ l) := by
  rw [List.take_append_eq_append_take, List.take_append_eq_append_take,
    List.take_take, Nat.min_eq_left (Nat.sub_le n a.length)]

lemma enqueueAll_maxSize (q : AckMessageQueue) (fps : List String) :
    (q.enqueueAll fps).maxSize = q.maxSize := by
  induction fps generalizing q with
  | nil => rfl
  | cons m ms ih =>
    exact ih (q.enqueueMessageString m)

lemma enqueueAll_queue (q : AckMessageQueue) (fps : List String)
    (hq : q.queue.length ≤ q.maxSize) :
    (q.enqueueAll fps).queue = (fps.reverse ++ q.queue).take q.maxSize := by
  induction fps generalizing q with
  | nil =>
    simp [AckMessageQueue.enqueueAll, List.take_of_length_le hq]
  | cons m ms ih =>
    have hstep : (q.enqueueMessageString m).queue.length ≤
        (q.enqueueMessageString m).maxSize := by
      simp [AckMessageQueue.enqueueMessageString]
    have h1 := ih (q.enqueueMessageString m) hstep
    simp only [AckMessageQueue.enqueueAll, List.foldl_cons] at h1 ⊢
    rw [h1]
    simp only [AckMessageQueue.enqueueMessageString, List.reverse_cons]
    rw [take_append_take q.maxSize ms.reverse (m :: q.queue), List.append_assoc]
    rfl

/-- C1: after any sequence of enqueues into a capacity-`N` queue, the queue
holds exactly the `min N (number enqueued)` most recently enqueued
fingerprints in most-recent-first order, and lookup succeeds iff the queried
fingerprint equals one of them; with capacity 3 the fingerprints of
`{"1":"1"}` … `{"5":"5"}` leave size 3 with positions 0,1,2 holding the
fingerprints of `{"5":"5"}`, `{"4":"4"}`, `{"3":"3"}`; on an empty queue
every lookup returns false. -/
theorem C1_dedup_queue (N : Nat) (fps : List String) (fp : String) :
    ((AckMessageQueue.mkEmpty N).enqueueAll fps).queue = fps.reverse.take N ∧
    ((AckMessageQueue.mkEmpty N).enqueueAll fps).size = min N fps.length ∧
    (((AckMessageQueue.mkEmpty N).enqueueAll fps).findMessageString fp = true ↔
      fp ∈ fps.reverse.take N) ∧
    (((AckMessageQueue.mkEmpty 3).enqueueAll
        [fpOf "1", fpOf "2", fpOf "3", fpOf "4", fpOf "5"]).size = 3 ∧
      ((AckMessageQueue.mkEmpty 3).enqueueAll
        [fpOf "1", fpOf "2", fpOf "3", fpOf "4", fpOf "5"]).at 0 =
          some (fpOf "5") ∧
      ((AckMessageQueue.mkEmpty 3).enqueueAll
        [fpOf "1", fpOf "2", fpOf "3", fpOf "4", fpOf "5"]).at 1 =
          some (fpOf "4") ∧
      ((AckMessageQueue.mkEmpty 3).enqueueAll
        [fpOf "1", fpOf "2", fpOf "3", fpOf "4", fpOf "5"]).at 2 =
          some (fpOf "3")) ∧
    (AckMessageQueue.mkEmpty N).findMessageString fp = false := by
  have hq : ((AckMessageQueue.mkEmpty N).enqueueAll fps).queue =
      fps.reverse.take N := by
    have h := enqueueAll_queue (AckMessageQueue.mkEmpty N) fps (by
      simp [AckMessageQueue.mkEmpty])
    simpa [AckMessageQueue.mkEmpty] using h
  have hmax : ((AckMessageQueue.mkEmpty N).enqueueAll fps).maxSize = N :=
    enqueueAll_maxSize _ _
  refine ⟨hq, ?_, ?_, ?_, ?_⟩
  · simp [AckMessageQueue.size, hq]
  · simp [AckMessageQueue.findMessageString, hq]
  · refine ⟨?_, ?_, ?_, ?_⟩ <;> decide
  · simp [AckMessageQueue.findMessageString, AckMessageQueue.mkEmpty]

/-- Witness for C1 at the test's concrete scenario: capacity 3, the five
fingerprints enqueued in order leave size 3. -/
theorem C1_dedup_queue_witness :
    ((AckMessageQueue.mkEmpty 3).enqueueAll
      [fpOf "1", fpOf "2", fpOf "3", fpOf "4", fpOf "5"]).size = 3 :=
  (C1_dedup_queue 3 [fpOf "1", fpOf "2", fpOf "3", fpOf "4", fpOf "5"]
    (fpOf "1")).2.2.2.1.1

/-- C3: every publish call sends through exactly one adapter — the primary
iff `primary.isConnected()` reports true at the time of that call, otherwise
the fallback; never both; and the connectivity check is re-evaluated on each
call of a sequence. -/
theorem C3_publish_exactly_one_adapter (calls : List (Bool × String))
    (conn : Bool) :
    compositedPublishRun calls =
      calls.map (fun c => (if c.1 then Adapter.primary else Adapter.fallback, c.2)) ∧
    (compositedPublishTargets conn).length = 1 ∧
    (Adapter.primary ∈ compositedPublishTargets conn ↔ conn = true) ∧
    (Adapter.fallback ∈ compositedPublishTargets conn ↔ conn = false) := by
  refine ⟨?_, ?_, ?_, ?_⟩
  · induction calls with
    | nil => rfl
    | cons c cs ih =>
      rcases c with ⟨b, m⟩
      cases b <;>
        simpa [compositedPublishRun, compositedPublishTargets] using ih
  · cases conn <;> simp [compositedPublishTargets]
  · cases conn <;> simp [compositedPublishTargets]
  · cases conn <;> simp [compositedPublishTargets]

/-- Witness for C3 at a concrete call sequence: a connected call then a
disconnected call send through the primary and the fallback respectively. -/
theorem C3_publish_exactly_one_adapter_witness :
    compositedPublishRun [(true, "m1"), (false, "m2")] =
      [(Adapter.primary, "m1"), (Adapter.fallback, "m2")] := by
  have h := (C3_publish_exactly_one_adapter [(true, "m1"), (false, "m2")] true).1
  simpa using h

/-- C4: for every inbound message event the server emits the message
verbatim to exactly the current members of the channel other than the
originating connection, and never to the originating connection itself. -/
theorem C4_relay_verbatim_not_to_sender (st : ServerState)
    (sid : String) (limited : Bool) (ch m snd tgt : String) :
    ((⟨tgt, ServerEvent.message ch m snd⟩ : Emit) ∈
        onMessage st sid limited ch m snd ↔
      tgt ≠ sid ∧ ∃ s, s ∈ st.sockets ∧ s.sid = tgt ∧ ch ∈ s.rooms) ∧
    (⟨sid, ServerEvent.message ch m snd⟩ : Emit) ∉
      onMessage st sid limited ch m snd := by
  constructor
  · simp only [onMessage, List.mem_append, ServerState.toRoomEmit,
      List.mem_map, List.mem_filter]
    constructor
    · rintro (hterm | ⟨s, ⟨hs, hprop⟩, heq⟩)
      · cases limited <;> simp_all
      · simp only [Bool.and_eq_true, List.elem_iff, bne_iff_ne] at hprop
        cases heq
        exact ⟨hprop.2, s, hs, rfl, hprop.1⟩
    · rintro ⟨hne, s, hs, hsid, hch⟩
      refine Or.inr ⟨s, ⟨hs, ?_⟩, by rw [hsid]⟩
      simp only [Bool.and_eq_true, List.elem_iff, bne_iff_ne]
      exact ⟨hch, by rw [hsid]; exact hne⟩
  · intro hmem
    simp only [onMessage, List.mem_append, ServerState.toRoomEmit,
      List.mem_map, List.mem_filter] at hmem
    rcases hmem with hterm | ⟨s, ⟨_, hprop⟩, heq⟩
    · cases limited <;> simp_all
    · simp only [Bool.and_eq_true, List.elem_iff, bne_iff_ne] at hprop
      cases heq
      exact hprop.2 rfl

/-- Witness for C4 at a concrete room: with members s1 and s2 of channel c,
a message from s1 is never emitted back to s1. -/
theorem C4_relay_verbatim_not_to_sender_witness :
    (⟨"s1", ServerEvent.message "c" "m" "d"⟩ : Emit) ∉
      onMessage ⟨[⟨"s1", ["c"], none⟩, ⟨"s2", ["c"], none⟩]⟩ "s1" false
        "c" "m" "d" :=
  (C4_relay_verbatim_not_to_sender ⟨[⟨"s1", ["c"], none⟩, ⟨"s2", ["c"], none⟩]⟩
    "s1" false "c" "m" "d" "s1").2

/-- C6: when the rate limiter reports the message-rate threshold exceeded,
the server initiates termination of the connection, but the triggering
message is still relayed — the set of relay targets is identical to the
unlimited case, so rate limiting never suppresses the triggering message. -/
theorem C6_rate_limited_message_still_relayed (st : ServerState)
    (sid ch m snd tgt : String) :
    onMessage st sid true ch m snd =
      ⟨sid, ServerEvent.terminate "Too many messages."⟩ ::
        st.toRoomEmit sid ch (ServerEvent.message ch m snd) ∧
    onMessage st sid false ch m snd =
      st.toRoomEmit sid ch (ServerEvent.message ch m snd) ∧
    ((⟨tgt, ServerEvent.message ch m snd⟩ : Emit) ∈ onMessage st sid true ch m snd ↔
      (⟨tgt, ServerEvent.message ch m snd⟩ : Emit) ∈ onMessage st sid false ch m snd) := by
  refine ⟨by simp [onMessage], by simp [onMessage], ?_⟩
  simp [onMessage]

/-- Witness for C6 at a concrete room: a rate-limited message from s1 still
produces the relayed copy, preceded by the terminate notice to s1. -/
theorem C6_rate_limited_message_still_relayed_witness :
    onMessage ⟨[⟨"s1", ["c"], none⟩, ⟨"s2", ["c"], none⟩]⟩ "s1" true
        "c" "m" "d" =
      ⟨"s1", ServerEvent.terminate "Too many messages."⟩ ::
        ServerState.toRoomEmit ⟨[⟨"s1", ["c"], none⟩, ⟨"s2", ["c"], none⟩]⟩
          "s1" "c" (ServerEvent.message "c" "m" "d") :=
  (C6_rate_limited_message_still_relayed
    ⟨[⟨"s1", ["c"], none⟩, ⟨"s2", ["c"], none⟩]⟩ "s1" "c" "m" "d" "s2").1

/-- C10 counterexample: the publish guard is the truthy
`if (this._currentChannel)`, not a null-check — after `subscribe("")` a
channel is subscribed (`_currentChannel = some ""`, not null), yet publish
emits nothing, refuting "when a channel is subscribed, exactly one message
event is emitted". -/
theorem C10_counterexample :
    ((SocketIOTransport.create ⟨"i", none, "ios"⟩ "s").subscribe
        "").2.currentChannel = some "" ∧
    SocketIOTransport.publish
      ((SocketIOTransport.create ⟨"i", none, "ios"⟩ "s").subscribe "").2 "m" =
        [] :=
  ⟨rfl, rfl⟩

/-- C10 amended: publish is a silent no-op unless a non-empty channel is
currently subscribed — when `_currentChannel` is null (never subscribed, or
after unsubscribe) or the empty string (the code's truthy guard), nothing is
emitted on the socket and no error is raised; when a non-empty channel is
subscribed, exactly one message event is emitted carrying that channel, the
message augmented with the device metadata, and the adapter's sender tag. -/
theorem C10_publish_requires_channel (t : SocketIOTransport) (d : Device)
    (sender m ch : String) :
    (t.currentChannel = none → t.publish m = []) ∧
    (t.currentChannel = some "" → t.publish m = []) ∧
    (t.currentChannel = some ch → ch ≠ "" →
      t.publish m = [ClientEmit.message ch ⟨m, t.device⟩ t.sender]) ∧
    (SocketIOTransport.create d sender).publish m = [] ∧
    (t.unsubscribe).2.publish m = [] := by
  refine ⟨?_, ?_, ?_, rfl, ?_⟩
  · intro h; simp [SocketIOTransport.publish, h]
  · intro h; simp [SocketIOTransport.publish, h]
  · intro h hne; simp [SocketIOTransport.publish, h, hne]
  · cases h : t.currentChannel with
    | none => simp [SocketIOTransport.unsubscribe, SocketIOTransport.publish, h]
    | some ch2 =>
      by_cases hc : ch2 = "" <;>
        simp [SocketIOTransport.unsubscribe, SocketIOTransport.publish, h, hc]

/-- Witness for C10 amended at concrete adapter states: publish emits the
single augmented message for the non-empty channel "c", and nothing when
the channel is null or the empty string. -/
theorem C10_publish_requires_channel_witness :
    SocketIOTransport.publish ⟨some "c", ⟨"i", none, "ios"⟩, "s"⟩ "m" =
      [ClientEmit.message "c" ⟨"m", ⟨"i", none, "ios"⟩⟩ "s"] ∧
    SocketIOTransport.publish ⟨none, ⟨"i", none, "ios"⟩, "s"⟩ "m" = [] ∧
    SocketIOTransport.publish ⟨some "", ⟨"i", none, "ios"⟩, "s"⟩ "m" = [] :=
  ⟨(C10_publish_requires_channel ⟨some "c", ⟨"i", none, "ios"⟩, "s"⟩
      ⟨"i", none, "ios"⟩ "s" "m" "c").2.2.1 rfl (by decide),
   (C10_publish_requires_channel ⟨none, ⟨"i", none, "ios"⟩, "s"⟩
      ⟨"i", none, "ios"⟩ "s" "m" "c").1 rfl,
   (C10_publish_requires_channel ⟨some "", ⟨"i", none, "ios"⟩, "s"⟩
      ⟨"i", none, "ios"⟩ "s" "m" "c").2.1 rfl⟩

/-- C8: terminateSocket sends the terminate notice with the reason first;
the forced close happens iff the client is still connected at the deadline,
and any forced close happens exactly 3000 ms after the notice. -/
theorem C8_terminate_notice_then_close (t0 : Nat) (reason : String)
    (dis : Option Nat) :
    (terminateSocketTimeline t0 reason dis).head? =
      some (t0, TermEvent.notice reason) ∧
    ((t0 + 3000, TermEvent.forceClose) ∈ terminateSocketTimeline t0 reason dis ↔
      ∀ d, dis = some d → t0 + 3000 < d) ∧
    (∀ p ∈ terminateSocketTimeline t0 reason dis,
      p.2 = TermEvent.forceClose → p.1 = t0 + 3000) := by
  refine ⟨rfl, ?_, ?_⟩
  · cases dis with
    | none => simp [terminateSocketTimeline]
    | some d =>
      by_cases h : d ≤ t0 + 3000
      · simp only [terminateSocketTimeline, if_pos h, List.mem_singleton]
        constructor
        · intro hmem
          exact absurd (congrArg Prod.snd hmem) (by simp)
        · intro hall
          exact absurd (hall d rfl) (by omega)
      · simp only [terminateSocketTimeline, if_neg h, List.mem_cons,
          List.mem_singleton]
        constructor
        · intro _ d2 hd2
          cases hd2
          omega
        · intro _
          exact Or.inr (Or.inl trivial)
  · intro p hp hclose
    have hcases : p = (t0, TermEvent.notice reason) ∨
        p = (t0 + 3000, TermEvent.forceClose) := by
      cases dis with
      | none => simpa [terminateSocketTimeline] using hp
      | some d =>
        by_cases h : d ≤ t0 + 3000 <;>
          · simp [terminateSocketTimeline, h] at hp
            tauto
    rcases hcases with rfl | rfl
    · exact absurd hclose (by simp)
    · rfl

/-- Witness for C8 at a concrete run: with the notice sent at 100 and the
client disconnecting itself at 5000 (after the deadline 3100), the forced
close fires; every close in the timeline is at 3100. -/
theorem C8_terminate_notice_then_close_witness :
    (terminateSocketTimeline 100 "Too many requests." (some 5000)).head? =
      some (100, TermEvent.notice "Too many requests.") ∧
    (100 + 3000, TermEvent.forceClose) ∈
      terminateSocketTimeline 100 "Too many requests." (some 5000) :=
  ⟨(C8_terminate_notice_then_close 100 "Too many requests." (some 5000)).1,
   (C8_terminate_notice_then_close 100 "Too many requests." (some 5000)).2.1.mpr
     (by intro d hd; cases hd; omega)⟩

/-- C9 counterexample: two distinct termination signals (SIGINT then
SIGTERM) each run the full shutdown sequence — the log contains the
sequence twice (6 steps), refuting "at most one graceful-shutdown sequence
runs even if multiple termination signals arrive"; and when the shutdown
work itself fails (server.close reports an error), the failure is only
logged and the process still exits with code 0, refuting "with a non-zero
exit code if the shutdown work itself fails". -/
theorem C9_counterexample :
    (deliverSignals initSignalState [Sig.sigInt, Sig.sigTerm]).log =
      shutdownSeq ++ shutdownSeq ∧
    (deliverSignals initSignalState [Sig.sigInt, Sig.sigTerm]).log.length = 6 ∧
    (shutdownOutcome true).1 = ["Failed to close server"] ∧
    (shutdownOutcome true).2 = 0 := by
  refine ⟨rfl, rfl, rfl, rfl⟩

/-- C9 amended: each signal handler is registered with `process.once`, so a
repeated delivery of the same signal runs the shutdown sequence only once,
but each distinct termination signal triggers its own full shutdown
sequence (close server, release cluster adapter, close store client, in
order) — two distinct signals from a fresh process yield the sequence
twice; and a failure of the server-close step is swallowed (logged as
'Failed to close server', the close promise resolves regardless), so after
the sequence the process exits with code 0 whether or not that shutdown
work failed. -/
theorem C9_shutdown_once_per_signal_name (st : SignalState) (sig s1 s2 : Sig)
    (e : Bool) (hfresh : sig ∉ st.consumed) (hne : s1 ≠ s2) :
    deliverSignal (deliverSignal st sig) sig = deliverSignal st sig ∧
    (deliverSignal st sig).log = st.log ++ shutdownSeq ∧
    (deliverSignals initSignalState [s1, s2]).log = shutdownSeq ++ shutdownSeq ∧
    (shutdownOutcome e).2 = 0 ∧
    (shutdownOutcome e).1 = (if e then ["Failed to close server"] else []) := by
  refine ⟨?_, ?_, ?_, ?_, ?_⟩
  · simp [deliverSignal, hfresh]
  · simp [deliverSignal, hfresh]
  · simp [deliverSignals, deliverSignal, initSignalState, Ne.symm hne]
  · rfl
  · rfl

/-- Witness for C9 amended at concrete signals: SIGTERM is fresh for the
initial state, SIGINT ≠ SIGTERM, and the server-close step fails. -/
theorem C9_shutdown_once_per_signal_name_witness :
    deliverSignal (deliverSignal initSignalState Sig.sigTerm) Sig.sigTerm =
      deliverSignal initSignalState Sig.sigTerm ∧
    (deliverSignal initSignalState Sig.sigTerm).log =
      initSignalState.log ++ shutdownSeq ∧
    (deliverSignals initSignalState [Sig.sigInt, Sig.sigTerm]).log =
      shutdownSeq ++ shutdownSeq ∧
    (shutdownOutcome true).2 = 0 ∧
    (shutdownOutcome true).1 =
      (if true then ["Failed to close server"] else []) :=
  C9_shutdown_once_per_signal_name initSignalState Sig.sigTerm Sig.sigInt
    Sig.sigTerm true (by simp [initSignalState]) (by simp)

/-- C7: the join-room / leave-room handler resolves the Device identifier of
the triggering connection among the fetched members; if it resolves to a
non-empty identifier, the presence event {channel, sender} goes to exactly
the members whose id differs from the triggering id — never to the
triggering connection; if it does not resolve (missing or empty), nothing
is emitted. -/
theorem C7_presence_fanout (isJoin : Bool) (ch : String)
    (sockets : List ServerSocket) (id snd : String) :
    ((resolveSender sockets id = none ∨ resolveSender sockets id = some "") →
      presenceEmits isJoin ch sockets id = []) ∧
    (∀ e ∈ presenceEmits isJoin ch sockets id, e.target ≠ id) ∧
    (resolveSender sockets id = some snd → snd ≠ "" →
      ∀ e, e ∈ presenceEmits isJoin ch sockets id ↔
        ∃ s, s ∈ sockets ∧ s.sid ≠ id ∧
          (e : Emit) = ⟨s.sid, if isJoin then ServerEvent.joinChannel ch snd
                               else ServerEvent.leaveChannel ch snd⟩) := by
  refine ⟨presenceEmits_unresolved isJoin ch sockets id, ?_, ?_⟩
  · intro e he
    cases hr : resolveSender sockets id with
    | none =>
      rw [presenceEmits_unresolved isJoin ch sockets id (Or.inl hr)] at he
      exact absurd he (List.not_mem_nil e)
    | some snd0 =>
      by_cases h0 : snd0 = ""
      · rw [presenceEmits_unresolved isJoin ch sockets id
          (Or.inr (h0 ▸ hr))] at he
        exact absurd he (List.not_mem_nil e)
      · rw [presenceEmits_resolved isJoin ch sockets id snd0 hr h0] at he
        simp only [List.mem_map, List.mem_filter, bne_iff_ne] at he
        rcases he with ⟨s, ⟨_, hne⟩, rfl⟩
        exact hne
  · intro h1 h2 e
    rw [presenceEmits_resolved isJoin ch sockets id snd h1 h2]
    simp only [List.mem_map, List.mem_filter, bne_iff_ne]
    constructor
    · rintro ⟨s, ⟨hs, hne⟩, rfl⟩
      exact ⟨s, hs, hne, rfl⟩
    · rintro ⟨s, hs, hne, rfl⟩
      exact ⟨s, ⟨hs, hne⟩, rfl⟩

/-- Witness for C7 at a concrete room: with members s1 (device "d") and s2,
the join of s1 resolves to "d", and the event goes to s2 and not to s1. -/
theorem C7_presence_fanout_witness :
    presenceEmits true "c"
      [⟨"s1", ["c"], some "d"⟩, ⟨"s2", ["c"], some "e"⟩] "s1" =
      [⟨"s2", ServerEvent.joinChannel "c" "d"⟩] ∧
    ((⟨"s2", ServerEvent.joinChannel "c" "d"⟩ : Emit) ∈
      presenceEmits true "c"
        [⟨"s1", ["c"], some "d"⟩, ⟨"s2", ["c"], some "e"⟩] "s1" ↔
      ∃ s, s ∈ [(⟨"s1", ["c"], some "d"⟩ : ServerSocket), ⟨"s2", ["c"], some "e"⟩] ∧
        s.sid ≠ "s1" ∧
        (⟨"s2", ServerEvent.joinChannel "c" "d"⟩ : Emit) =
          ⟨s.sid, ServerEvent.joinChannel "c" "d"⟩) := by
  constructor
  · decide
  · have h := (C7_presence_fanout true "c"
      [⟨"s1", ["c"], some "d"⟩, ⟨"s2", ["c"], some "e"⟩] "s1" "d").2.2
      (by decide) (by decide) ⟨"s2", ServerEvent.joinChannel "c" "d"⟩
    simpa using h

/-- C5 counterexample: the server's subscribeChannel handler does not remove
the connection from its previous channel — after subscribing socket s1 to
channel "a" and then to channel "b", s1 is simultaneously a member of both
channels, refuting the claimed server-side exclusivity. -/
theorem C5_counterexample :
    "a" ∈ ((onSubscribeChannel
        ((onSubscribeChannel ⟨[⟨"s1", [], none⟩]⟩ "s1" false "a" "d").2)
        "s1" false "b" "d").2).roomsOf "s1" ∧
    "b" ∈ ((onSubscribeChannel
        ((onSubscribeChannel ⟨[⟨"s1", [], none⟩]⟩ "s1" false "a" "d").2)
        "s1" false "b" "d").2).roomsOf "s1" := by
  constructor <;> decide

/-- C5 amended: channel exclusivity is enforced by the client, not the
server: the server's subscribeChannel handler only adds the connection to
the requested channel (retaining all prior memberships) and records the
sender as its device id, while the client transport's subscribe(channel)
first unsubscribes from any currently subscribed channel — emitting
unsubscribeChannel for the previous channel before subscribeChannel
whenever that previous channel is non-empty (the code's truthy guard) —
and tracks a single current channel. -/
theorem C5_membership_amended (st : ServerState) (sid ch snd : String)
    (limited : Bool) (t : SocketIOTransport) :
    (∀ s, s ∈ st.sockets →
      ∃ s2, s2 ∈ ((onSubscribeChannel st sid limited ch snd).2).sockets ∧
        s2.sid = s.sid ∧ (∀ r, r ∈ s.rooms → r ∈ s2.rooms) ∧
        (s.sid = sid → ch ∈ s2.rooms ∧ s2.deviceId = some snd)) ∧
    (t.subscribe ch).1 =
      (match t.currentChannel with
       | some prev =>
         if prev = "" then [] else [ClientEmit.unsubscribeChannel prev t.sender]
       | none => []) ++ [ClientEmit.subscribeChannel ch t.sender] ∧
    (t.subscribe ch).2.currentChannel = some ch := by
  refine ⟨?_, ?_, rfl⟩
  · intro s hs
    rw [onSubscribeChannel_sockets_eq]
    refine ⟨if s.sid = sid then
        { s with rooms := if ch ∈ s.rooms then s.rooms else ch :: s.rooms,
                 deviceId := some snd }
      else s, List.mem_map_of_mem _ hs, ?_, ?_, ?_⟩
    · by_cases hsid : s.sid = sid <;> simp [hsid]
    · intro r hr
      by_cases hsid : s.sid = sid
      · by_cases hch : ch ∈ s.rooms
        · simp [hsid, hch, hr]
        · simp only [hsid, hch, if_true, if_false, List.mem_cons]
          exact Or.inr hr
      · simp [hsid, hr]
    · intro hsid
      by_cases hch : ch ∈ s.rooms <;> simp [hsid, hch]
  · cases h : t.currentChannel with
    | none => simp [SocketIOTransport.subscribe, SocketIOTransport.unsubscribe, h]
    | some prev =>
      by_cases hp : prev = "" <;>
        simp [SocketIOTransport.subscribe, SocketIOTransport.unsubscribe, h, hp]

/-- Witness for C5 amended at a concrete state: socket s1 already in "a"
subscribes to "b" — its membership in "a" survives, "b" is added and its
device id is recorded as "d"; the client, currently on the non-empty
channel "a", emits unsubscribeChannel "a" then subscribeChannel "b". -/
theorem C5_membership_amended_witness :
    (∃ s2, s2 ∈ ((onSubscribeChannel ⟨[⟨"s1", ["a"], none⟩]⟩ "s1" false "b"
        "d").2).sockets ∧
      s2.sid = "s1" ∧ (∀ r, r ∈ ["a"] → r ∈ s2.rooms) ∧
      ("s1" = "s1" → "b" ∈ s2.rooms ∧ s2.deviceId = some "d")) ∧
    (SocketIOTransport.subscribe ⟨some "a", ⟨"i", none, "ios"⟩, "snd"⟩ "b").1 =
      [ClientEmit.unsubscribeChannel "a" "snd",
        ClientEmit.subscribeChannel "b" "snd"] :=
  ⟨(C5_membership_amended ⟨[⟨"s1", ["a"], none⟩]⟩ "s1" "b" "d" false
      ⟨some "a", ⟨"i", none, "ios"⟩, "snd"⟩).1 ⟨"s1", ["a"], none⟩
      (by decide),
   by
     have h := (C5_membership_amended ⟨[⟨"s1", ["a"], none⟩]⟩ "s1" "b" "d" false
       ⟨some "a", ⟨"i", none, "ios"⟩, "snd"⟩).2.1
     simpa using h⟩

/-- C2: with a registered upper listener: when the primary adapter is
connected and both adapters deliver the identical message
near-simultaneously, the upper listener is invoked exactly once with that
message; likewise when the primary's copy arrives only after the settle
window has elapsed; and when the primary is disconnected and only the
fallback delivers. -/
theorem C2_listener_invoked_once (m : String) (t delta cap : Nat)
    (hcap : 1 ≤ cap) :
    (runListen true delta cap
      [⟨t, true, m⟩, ⟨t, false, m⟩]).delivered = [m] ∧
    (∀ tp, t + delta < tp →
      (runListen true delta cap
        [⟨t, false, m⟩, ⟨tp, true, m⟩]).delivered = [m]) ∧
    (runListen false delta cap [⟨t, false, m⟩]).delivered = [m] := by
  obtain ⟨k, rfl⟩ : ∃ k, cap = k + 1 := ⟨cap - 1, by omega⟩
  refine ⟨?_, ?_, ?_⟩
  · simp [runListen, scheduleOrder, insertByTime, effectiveTime, dedupStep,
      AckMessageQueue.findMessageString, AckMessageQueue.enqueueMessageString,
      AckMessageQueue.mkEmpty]
  · intro tp htp
    have hle : t + delta ≤ tp := Nat.le_of_lt htp
    simp [runListen, scheduleOrder, insertByTime, effectiveTime, dedupStep,
      AckMessageQueue.findMessageString, AckMessageQueue.enqueueMessageString,
      AckMessageQueue.mkEmpty, hle]
  · simp [runListen, scheduleOrder, insertByTime, effectiveTime, dedupStep,
      AckMessageQueue.findMessageString, AckMessageQueue.enqueueMessageString,
      AckMessageQueue.mkEmpty]

/-- Witness for C2 at the test's concrete parameters: settle delay 100 ms,
dedup queue capacity 3, fallback at 0 ms, late primary at 201 ms. -/
theorem C2_listener_invoked_once_witness :
    (runListen true 100 3 [⟨0, true, "a"⟩, ⟨0, false, "a"⟩]).delivered = ["a"] ∧
    (runListen true 100 3 [⟨0, false, "a"⟩, ⟨201, true, "a"⟩]).delivered = ["a"] ∧
    (runListen false 100 3 [⟨0, false, "a"⟩]).delivered = ["a"] :=
  ⟨(C2_listener_invoked_once "a" 0 100 3 (by decide)).1,
   (C2_listener_invoked_once "a" 0 100 3 (by decide)).2.1 201 (by decide),
   (C2_listener_invoked_once "a" 0 100 3 (by decide)).2.2⟩

end Snack
